import Mathlib

/-!
# Verification of the DoclingOCRServer job-orchestration subsystem

Shallow embedding of the asynchronous job orchestration and artifact-lifecycle
subsystem of the DoclingOCRServer repository:

* `models.py` — the `TaskStatus` and `TableFormat` enums;
* `services/storage.py` — `StorageManager`: the in-memory task registry plus
  the on-disk task directories and archive files, modelled as a
  `StorageState` (registry as an association list, directories and archive
  files as lists of the task identifiers naming them);
* `main.py` — the upload-endpoint validation (`process_document`) and the
  background runner (`process_document_task`), the latter modelled as an
  event trace parameterised over the outcomes of its external steps;
* `services/document_processor.py` — the control skeleton of
  `DocumentProcessor.process_document` (legacy-format bridging, conversion,
  export, scoped cleanup) and the pure markdown image-path rewriting
  performed during artifact normalization.

External collaborators (the Docling engine, LibreOffice, the filesystem
primitives `shutil.make_archive` / `shutil.rmtree` / `Path.unlink`) are
treated as environment outcomes: each call either succeeds or raises, and the
surrounding control flow is translated faithfully from the source.  Timestamps
are integers counting seconds.
-/

namespace DoclingOCR

/-! ## models.py -/

/-- `TaskStatus` enum (models.py lines 6-10). -/
inductive TaskStatus
  | pending
  | processing
  | completed
  | failed
deriving DecidableEq, Repr

/-- `TableFormat` enum (models.py lines 13-17). -/
inductive TableFormat
  | auto
  | markdown
  | html
deriving DecidableEq, Repr

/-! ## services/storage.py — StorageManager -/

/-- One entry of `StorageManager.tasks` (storage.py lines 51-55): the dict
written by `create_task` holds a status, a creation time and, once
`update_task_status` stores one, an error message.  The `path` key is a pure
derivation from the id and is not repeated here. -/
structure TaskInfo where
  status : TaskStatus
  created_at : Int
  error : Option String := none
deriving DecidableEq, Repr

/-- The state owned by `StorageManager`: the in-memory registry `tasks`
(association list keyed by task id, first match wins as in a dict),
the set of existing task directories under the storage root, and the set of
existing `<id>.zip` archive files, each named by the task id they belong to. -/
structure StorageState where
  tasks : List (String × TaskInfo)
  dirs : List String
  zips : List String
deriving DecidableEq, Repr

/-- Python truthiness of the optional `error` argument: `None` and the empty
string are falsy, every other string is truthy (the `if error:` test in
storage.py line 63). -/
def pyTruthy : Option String → Bool
  | none => false
  | some s => !(s == "")

/-- `StorageManager.update_task_status` (storage.py lines 59-64):
if the id is registered, overwrite the status and, when the `error` argument
is truthy, the error field; otherwise do nothing. -/
def update_task_status (s : StorageState) (id : String) (st : TaskStatus)
    (err : Option String := none) : StorageState :=
  if s.tasks.any (fun p => p.1 == id) then
    { s with tasks := s.tasks.map (fun p =>
        if p.1 = id then
          (p.1, { p.2 with
                  status := st,
                  error := if pyTruthy err then err else p.2.error })
        else p) }
  else s

/-- Dict lookup in the registry: the value of the first entry carrying the
key, if any. -/
def lookupTask : List (String × TaskInfo) → String → Option TaskInfo
  | [], _ => none
  | (k, v) :: tl, id => if id = k then some v else lookupTask tl id

/-- `StorageManager.get_task_status` (storage.py lines 66-68): dict lookup. -/
def get_task_status (s : StorageState) (id : String) : Option TaskInfo :=
  lookupTask s.tasks id

/-- Dict assignment `self.tasks[task_id] = {...}`: replace the entry if the
key is present, otherwise append it. -/
def registry_set (tasks : List (String × TaskInfo)) (id : String)
    (info : TaskInfo) : List (String × TaskInfo) :=
  if tasks.any (fun p => p.1 == id) then
    tasks.map (fun p => if p.1 = id then (id, info) else p)
  else tasks ++ [(id, info)]

/-- `StorageManager.create_task` (storage.py lines 44-57): `mkdir` the task
directory (with `exist_ok=True`; the `images` subdirectory lives inside it and
is not tracked separately) and register the task as PENDING with creation time
`now`. -/
def create_task (s : StorageState) (id : String) (now : Int) : StorageState :=
  { s with
    dirs := if s.dirs.contains id then s.dirs else s.dirs ++ [id]
    tasks := registry_set s.tasks id
      { status := TaskStatus.pending, created_at := now, error := none } }

/-- `shutil.rmtree`: removes the directory, raising when it does not exist
(which is why `delete_task` guards the call with `task_path.exists()`). -/
def rmtree (dirs : List String) (d : String) : Except String (List String) :=
  if dirs.contains d then
    Except.ok (dirs.filter (fun x => decide (x ≠ d)))
  else
    Except.error ("No such directory: " ++ d)

/-- `Path.unlink`: removes the file, raising when it does not exist. -/
def unlink (files : List String) (f : String) : Except String (List String) :=
  if files.contains f then
    Except.ok (files.filter (fun x => decide (x ≠ f)))
  else
    Except.error ("No such file: " ++ f)

/-- `StorageManager.delete_task` (storage.py lines 78-91): remove the task
directory if it exists, then the zip if it exists, then the registry entry if
present.  Each filesystem primitive can raise, hence the `Except` result. -/
def delete_task (s : StorageState) (id : String) : Except String StorageState := do
  let dirs ← (if s.dirs.contains id then rmtree s.dirs id else Except.ok s.dirs)
  let zips ← (if s.zips.contains id then unlink s.zips id else Except.ok s.zips)
  let tasks :=
    if s.tasks.any (fun p => p.1 == id) then
      s.tasks.filter (fun p => decide (p.1 ≠ id))
    else s.tasks
  Except.ok { tasks := tasks, dirs := dirs, zips := zips }

/-- The pure effect of one `delete_task` call: every trace of the id is
filtered out of the registry, the directory list and the zip list. -/
def delete_pure (s : StorageState) (id : String) : StorageState :=
  { tasks := s.tasks.filter (fun p => decide (p.1 ≠ id))
    dirs := s.dirs.filter (fun x => decide (x ≠ id))
    zips := s.zips.filter (fun x => decide (x ≠ id)) }

/-- `StorageManager.cleanup_old_tasks` (storage.py lines 30-42): compute
`cutoff = now - ttl`, collect the ids of every task whose `created_at` is
strictly below the cutoff (the `<` comparison of line 36), then delete each
collected task in turn. -/
def cleanup_old_tasks (s : StorageState) (now ttl_seconds : Int) :
    Except String StorageState :=
  let cutoff := now - ttl_seconds
  let toRemove :=
    (s.tasks.filter (fun p => decide (p.2.created_at < cutoff))).map (fun p => p.1)
  toRemove.foldlM delete_task s

/-! ## main.py — upload validation (`process_document`, lines 99-170)

The endpoint validates the upload before any job state is touched: first the
size check (line 128, HTTP 413), then the extension check (line 137, HTTP
400).  Only after both pass does it draw a fresh task id (`uuid.uuid4()`,
line 144) and call `create_task` (line 147).  The uuid source is modelled as
a counter: drawing an identifier consumes one counter value. -/

/-- Allowed upload extensions (main.py line 135), compared lowercased. -/
def allowed_extensions : List String :=
  [".pdf", ".docx", ".doc", ".xlsx", ".xls", ".jpg", ".jpeg", ".png"]

/-- The upload endpoint (main.py lines 99-170) up to job creation.
`max_mb` is `settings.max_file_size_mb`, `size` the uploaded byte count,
`ext` the lowercased filename suffix, `uuidCtr` the state of the fresh-id
source, `now` the clock.  Returns the new storage/uuid state together with
either the HTTP error code of the raised `HTTPException` or the new task id. -/
def process_document_endpoint (s : StorageState) (uuidCtr : Nat)
    (max_mb size : Nat) (ext : String) (now : Int) :
    (StorageState × Nat) × Except Nat String :=
  if size > max_mb * 1024 * 1024 then
    ((s, uuidCtr), Except.error 413)
  else if (allowed_extensions.contains ext) = false then
    ((s, uuidCtr), Except.error 400)
  else
    let id := "task-" ++ toString uuidCtr
    ((create_task s id now, uuidCtr + 1), Except.ok id)

/-! ## The call from the runner into the pipeline (main.py line 66)

`process_document_task` invokes
`processor.process_document(file_path, task_dir, force_ocr=force_ocr,
table_format=table_format.value)`.  Python binds such a call only when every
keyword argument names a declared parameter (the signature declares no
`**kwargs`); otherwise the call raises `TypeError` before the body runs. -/

/-- Parameters declared by `DocumentProcessor.process_document`
(document_processor.py lines 192-197), excluding `self`. -/
def process_document_params : List String :=
  ["file_path", "output_dir", "force_ocr"]

/-- Keyword arguments supplied at the call site in `process_document_task`
(main.py line 66), after the two positional arguments. -/
def process_document_call_kwargs : List String :=
  ["force_ocr", "table_format"]

/-- Python's argument binding for the call: accepted only if every supplied
keyword names a declared parameter. -/
def call_accepted : Bool :=
  process_document_call_kwargs.all
    (fun k => process_document_params.contains k)

/-- The `TypeError` text Python raises when binding fails. -/
def typeErrorMsg : String :=
  "process_document() got an unexpected keyword argument " ++ "table_format"

/-! ## Event traces of the background runner and the conversion pipeline

`process_document_task` (main.py lines 56-96) and the body of
`DocumentProcessor.process_document` (document_processor.py lines 192-346)
are modelled as the sequence of observable actions they perform, given the
outcome (success or raised exception) of each external call.  Deletion
primitives inside `finally` blocks are modelled as succeeding (the processor
additionally swallows a failing unlink of the bridged file, line 345). -/

/-- Observable actions of one job run. -/
inductive Event
  /-- a `storage_manager.update_task_status` call with the given status and
  error argument -/
  | setStatus (st : TaskStatus) (err : Option String)
  /-- `shutil.make_archive` returned: the zip archive now exists -/
  | makeArchive
  /-- `shutil.rmtree(task_dir)` returned: the expanded directory is gone -/
  | removeTaskDir
  /-- `file_path.unlink()` in the runner's `finally`: the uploaded temporary
  file is gone -/
  | deleteUploadFile
  /-- `converted_file.unlink()` in the processor's `finally`: the bridged
  intermediate file is gone -/
  | deleteBridgedFile
deriving DecidableEq, Repr

/-- Environment outcomes of one job run: the lowercased extension of the
uploaded file, the result of each external call in program order, and the
filesystem facts the code tests with `.exists()`. -/
structure Env where
  /-- lowercased suffix of the upload (document_processor.py line 215) -/
  ext : String
  /-- LibreOffice bridging (lines 137-190): `ok` means the converted file was
  produced and found on disk -/
  bridge : Except String Unit
  /-- the bridged file still exists when the processor's `finally` runs
  (line 341) -/
  bridgedExistsAtCleanup : Bool
  /-- `converter.convert` (line 231) -/
  convert : Except String Unit
  /-- `save_as_markdown` export plus artifact normalization (lines 263-328) -/
  exportStep : Except String Unit
  /-- `shutil.make_archive` (main.py line 70) -/
  archive : Except String Unit
  /-- `task_dir.exists()` (main.py line 78) -/
  taskDirExists : Bool
  /-- `shutil.rmtree(task_dir)` (main.py line 79) -/
  rmtreeTaskDir : Except String Unit
  /-- `file_path.exists()` in the runner's `finally` (main.py line 95) -/
  uploadExists : Bool
deriving Repr

/-- The legacy-format test of document_processor.py lines 216-221. -/
def needsBridge (env : Env) : Bool :=
  env.ext == ".doc" || env.ext == ".xls"

/-- Trace and result of the body of `DocumentProcessor.process_document`
(document_processor.py lines 192-346): bridge if the suffix is legacy
(a bridging failure propagates before `converted_file` is assigned, so the
`finally` block then deletes nothing), then convert, then export; the
`finally` block deletes the bridged file whenever one was created and still
exists. -/
def process_document_trace (env : Env) : List Event × Except String Unit :=
  if needsBridge env then
    match env.bridge with
    | Except.error e => ([], Except.error e)
    | Except.ok _ =>
      let fin := if env.bridgedExistsAtCleanup then [Event.deleteBridgedFile] else []
      match env.convert with
      | Except.error e => (fin, Except.error e)
      | Except.ok _ =>
        match env.exportStep with
        | Except.error e => (fin, Except.error e)
        | Except.ok _ => (fin, Except.ok ())
  else
    match env.convert with
    | Except.error e => ([], Except.error e)
    | Except.ok _ =>
      match env.exportStep with
      | Except.error e => ([], Except.error e)
      | Except.ok _ => ([], Except.ok ())

/-- The runner's pipeline invocation (main.py line 66) composed with Python's
argument binding: when `binding_ok` is set the body runs, otherwise the call
raises `TypeError` without running the body.  The actual program has
`binding_ok = call_accepted`. -/
def pipeline_call (binding_ok : Bool) (env : Env) :
    List Event × Except String Unit :=
  if binding_ok then process_document_trace env
  else ([], Except.error typeErrorMsg)

/-- Trace of `process_document_task` (main.py lines 56-96): mark PROCESSING,
run the pipeline, archive, remove the expanded directory, mark COMPLETED; any
exception lands in the `except` branch, which marks FAILED with the caught
error text; the `finally` branch deletes the upload if it still exists. -/
def process_document_task_trace (binding_ok : Bool) (env : Env) : List Event :=
  let p := pipeline_call binding_ok env
  let body :=
    match p.2 with
    | Except.error e =>
      Event.setStatus TaskStatus.processing none :: p.1
        ++ [Event.setStatus TaskStatus.failed (some e)]
    | Except.ok _ =>
      Event.setStatus TaskStatus.processing none :: p.1
        ++ (match env.archive with
            | Except.error e => [Event.setStatus TaskStatus.failed (some e)]
            | Except.ok _ =>
              Event.makeArchive ::
                (if env.taskDirExists then
                  match env.rmtreeTaskDir with
                  | Except.error e => [Event.setStatus TaskStatus.failed (some e)]
                  | Except.ok _ =>
                    [Event.removeTaskDir,
                     Event.setStatus TaskStatus.completed none]
                else [Event.setStatus TaskStatus.completed none]))
  body ++ (if env.uploadExists then [Event.deleteUploadFile] else [])

/-- The statuses a trace writes to the store, in order. -/
def statusesOf (tr : List Event) : List TaskStatus :=
  tr.filterMap (fun e =>
    match e with
    | Event.setStatus st _ => some st
    | _ => none)

/-- Does an event mark the job COMPLETED? -/
def completedSet : Event → Bool
  | Event.setStatus TaskStatus.completed _ => true
  | _ => false

/-- Does an event mark the job FAILED? -/
def failedSet : Event → Bool
  | Event.setStatus TaskStatus.failed _ => true
  | _ => false

/-- `noEventBefore tr marker bad`: no `bad` event occurs strictly before the
first occurrence of `marker` (so in particular, if any `bad` event occurs at
all, a `marker` precedes it). -/
def noEventBefore (tr : List Event) (marker : Event) (bad : Event → Bool) : Bool :=
  (tr.takeWhile (fun e => decide (e ≠ marker))).all (fun e => !(bad e))

/-- The transitions allowed by the job-lifecycle state machine
PENDING → PROCESSING → (COMPLETED | FAILED). -/
def statusStep : TaskStatus → TaskStatus → Bool
  | TaskStatus.pending, TaskStatus.processing => true
  | TaskStatus.processing, TaskStatus.completed => true
  | TaskStatus.processing, TaskStatus.failed => true
  | _, _ => false

/-- A status sequence is a walk along the lifecycle state machine: each
adjacent pair is an allowed forward transition (hence never backwards, and a
terminal status is reached only from PROCESSING). -/
def validLifecycle : List TaskStatus → Bool
  | [] => true
  | [_] => true
  | a :: b :: rest => statusStep a b && validLifecycle (b :: rest)

/-- Did an exception arise during bridging/conversion/export, archiving, or
the directory removal between archiving and the COMPLETED update? -/
def raisedDuring (binding_ok : Bool) (env : Env) : Bool :=
  match (pipeline_call binding_ok env).2 with
  | Except.error _ => true
  | Except.ok _ =>
    match env.archive with
    | Except.error _ => true
    | Except.ok _ =>
      env.taskDirExists &&
        (match env.rmtreeTaskDir with
         | Except.error _ => true
         | Except.ok _ => false)

/-! ## document_processor.py — artifact normalization (lines 271-323)

After export, every file of the engine's `document_artifacts` directory is
moved to `images/` under a fresh GUID name, recording an `old → new` mapping,
and the markdown is rewritten by three `re.sub` passes per mapping entry:

1. `!\[(.*?)\]\(.*/document_artifacts/<old>\)` — a target that ends in
   `/document_artifacts/<old>` after any leading path text;
2. `!\[(.*?)\]\(/[^)]*?/images/<old>\)`  — an absolute target `/…/images/<old>`;
3. `!\[(.*?)\]\(images/<old>\)`          — the bare relative `images/<old>`;

each replaced by `![<alt>](images/<new>)`.  The embedding works on documents
given as a sequence of chunks, each chunk either plain text (containing no
image-reference syntax) or a single well-formed image reference `![alt](target)`
whose alt and target contain no brackets, parentheses or newlines; on such
documents each `re.sub` match is exactly one reference, and a reference is
rewritten precisely when its target matches the corresponding anchored
pattern.  String tests are implemented on the underlying character lists so
that they evaluate by `decide`. -/

/-- Is `suf` a suffix of `s` (on character lists)? -/
def suffixOfChars (s suf : List Char) : Bool :=
  if suf.length ≤ s.length then
    decide (s.drop (s.length - suf.length) = suf)
  else false

/-- Does string `s` end with `suf`? -/
def strEndsWith (s suf : String) : Bool :=
  suffixOfChars s.data suf.data

/-- Does string `s` start with `pre`? -/
def strStartsWith (s pre : String) : Bool :=
  decide (s.data.take pre.data.length = pre.data)

/-- Drop the first character of a string. -/
def strDropOne (s : String) : String :=
  String.mk s.data.tail

/-- The engine's intermediate artifacts directory name
(document_processor.py line 272). -/
def artifactsDirName : String := "document_artifacts"

/-- Pattern 1 (line 304): the target ends in `/document_artifacts/<old>`,
with anything (possibly empty) before that slash. -/
def matchesArtifactsPath (t old : String) : Bool :=
  strEndsWith t ("/" ++ artifactsDirName ++ "/" ++ old)

/-- Pattern 2 (line 310): the target is `/<middle>/images/<old>` — it starts
with a slash and, after that slash, ends in `/images/<old>`. -/
def matchesAbsImagesPath (t old : String) : Bool :=
  strStartsWith t "/" && strEndsWith (strDropOne t) ("/images/" ++ old)

/-- Pattern 3 (line 316): the target is exactly `images/<old>`. -/
def matchesRelImagesPath (t old : String) : Bool :=
  t == "images/" ++ old

/-- One mapping entry applied to one reference target: the three `re.sub`
passes in source order. -/
def applyMappingEntry (t : String) (entry : String × String) : String :=
  let t1 := if matchesArtifactsPath t entry.1 then "images/" ++ entry.2 else t
  let t2 := if matchesAbsImagesPath t1 entry.1 then "images/" ++ entry.2 else t1
  if matchesRelImagesPath t2 entry.1 then "images/" ++ entry.2 else t2

/-- The whole rewrite loop of lines 302-320 on one reference target: fold the
three substitutions over the recorded `old → new` mapping in order. -/
def fixImagePaths (mapping : List (String × String)) (t : String) : String :=
  mapping.foldl applyMappingEntry t

/-- A chunk of the exported markdown document. -/
inductive MdChunk
  | text (s : String)
  | imageRef (alt : String) (target : String)
deriving DecidableEq, Repr

/-- The rewrite applied to the whole document: text chunks contain no image
reference syntax and are left alone; each reference target goes through the
substitution loop. -/
def fixDocument (mapping : List (String × String)) (doc : List MdChunk) :
    List MdChunk :=
  doc.map (fun c =>
    match c with
    | MdChunk.text s => MdChunk.text s
    | MdChunk.imageRef a t => MdChunk.imageRef a (fixImagePaths mapping t))

/-- After normalization the `images/` directory holds exactly the moved
files, i.e. the new names recorded in the mapping (lines 283-292). -/
def imagesDirContents (mapping : List (String × String)) : List String :=
  mapping.map (fun p => p.2)

/-- Does the character list `s` contain `pat` as a contiguous sublist? -/
def hasInfixChars : List Char → List Char → Bool
  | [], pat => pat.isEmpty
  | s@(_ :: tl), pat => decide (s.take pat.length = pat) || hasInfixChars tl pat

/-- Does a string contain the artifacts-directory name as a substring? -/
def mentionsArtifactsDir (t : String) : Bool :=
  hasInfixChars t.data artifactsDirName.data

/-- Concrete environment of the C4 witness: a plain `.pdf` run in which the
engine conversion raises. -/
def c4_env : Env :=
  { ext := ".pdf", bridge := Except.ok (), bridgedExistsAtCleanup := false,
    convert := Except.error "engine failure", exportStep := Except.ok (),
    archive := Except.ok (), taskDirExists := true,
    rmtreeTaskDir := Except.ok (), uploadExists := true }

/-- Concrete environment of the C6 witness: a fully successful `.doc` run. -/
def c6_env : Env :=
  { ext := ".doc", bridge := Except.ok (), bridgedExistsAtCleanup := true,
    convert := Except.ok (), exportStep := Except.ok (),
    archive := Except.ok (), taskDirExists := true,
    rmtreeTaskDir := Except.ok (), uploadExists := true }

/-- The job used in the C8 checks: PENDING, created at 0, no error stored. -/
def c8_info : TaskInfo :=
  { status := TaskStatus.pending, created_at := 0, error := none }

/-- Storage state holding only the job `t`. -/
def c8_state : StorageState :=
  { tasks := [("t", c8_info)], dirs := ["t"], zips := [] }

/-- The job used in the C10 witness: PROCESSING, created at 5, no error. -/
def c10_info : TaskInfo :=
  { status := TaskStatus.processing, created_at := 5, error := none }

/-- Storage state holding only the job `job`. -/
def c10_state : StorageState :=
  { tasks := [("job", c10_info)], dirs := ["job"], zips := [] }

/-- The fresh GUID-style name of the single moved image in the C2 check. -/
def c2_newName : String := "3f2b8a1e-9c41-4cf0-8e55-1a2b3c4d5e6f.png"

/-- The recorded rename mapping of the C2 check: `pic.png` was moved into
`images/` under the fresh name. -/
def c2_mapping : List (String × String) := [("pic.png", c2_newName)]

/-- The job used in the C3 boundary check: created at time 0. -/
def c3_info : TaskInfo :=
  { status := TaskStatus.completed, created_at := 0, error := none }

/-- Storage state holding only that job, its directory and its archive. -/
def c3_state : StorageState :=
  { tasks := [("job", c3_info)], dirs := ["job"], zips := ["job"] }


/-! ### Helper lemmas about the storage operations -/

/-- Filtering away a string absent from the list is the identity. -/
theorem filter_ne_of_not_mem {l : List String} {a : String} (h : a ∉ l) :
    l.filter (fun x => decide (x ≠ a)) = l := by
  apply List.filter_eq_self.mpr
  intro x hx
  simp only [decide_eq_true_eq]
  intro hxa
  exact h (hxa ▸ hx)

/-- The guarded `rmtree` call of `delete_task` never raises. -/
theorem guarded_rmtree (l : List String) (a : String) :
    (if l.contains a then rmtree l a else Except.ok l)
      = Except.ok (l.filter (fun x => decide (x ≠ a))) := by
  cases hc : l.contains a with
  | true =>
      have h : a ∈ l := by simpa using hc
      simp [rmtree, h]
  | false =>
      have h : a ∉ l := by simpa using hc
      rw [filter_ne_of_not_mem h]
      simp

/-- The guarded `unlink` call of `delete_task` never raises. -/
theorem guarded_unlink (l : List String) (a : String) :
    (if l.contains a then unlink l a else Except.ok l)
      = Except.ok (l.filter (fun x => decide (x ≠ a))) := by
  cases hc : l.contains a with
  | true =>
      have h : a ∈ l := by simpa using hc
      simp [unlink, h]
  | false =>
      have h : a ∉ l := by simpa using hc
      rw [filter_ne_of_not_mem h]
      simp

/-- `update_task_status`-style registry filters are the identity when the key
is unregistered; the guarded registry deletion is therefore always the key
filter. -/
theorem guarded_registry_delete (l : List (String × TaskInfo)) (a : String) :
    (if l.any (fun p => p.1 == a) then l.filter (fun p => decide (p.1 ≠ a)) else l)
      = l.filter (fun p => decide (p.1 ≠ a)) := by
  cases hc : l.any (fun p => p.1 == a) with
  | true => simp
  | false =>
      have hfe : l.filter (fun p => decide (p.1 ≠ a)) = l := by
        apply List.filter_eq_self.mpr
        intro p hp
        simp only [decide_eq_true_eq]
        simp at hc
        exact hc p.1 p.2 hp
      rw [hfe]
      simp

/-- `delete_task` never raises: it always returns `delete_pure`. -/
theorem delete_task_eq_pure (s : StorageState) (id : String) :
    delete_task s id = Except.ok (delete_pure s id) := by
  unfold delete_task delete_pure
  rw [guarded_rmtree, guarded_unlink, guarded_registry_delete]
  rfl

/-! ### Association-list lemmas for the registry -/

/-- A key that `lookupTask` finds is a member of the association list. -/
theorem lookupTask_some_mem {l : List (String × TaskInfo)} {id : String}
    {info : TaskInfo} (h : lookupTask l id = some info) : (id, info) ∈ l := by
  induction l with
  | nil => simp [lookupTask] at h
  | cons hd tl ih =>
    obtain ⟨k, v⟩ := hd
    by_cases hk : id = k
    · subst hk
      simp [lookupTask] at h
      simp [h]
    · simp [lookupTask, hk] at h
      exact List.mem_cons_of_mem _ (ih h)

/-- A key that `lookupTask` finds makes the `if task_id in self.tasks` guard
of the source true. -/
theorem lookupTask_some_any {l : List (String × TaskInfo)} {id : String}
    {info : TaskInfo} (h : lookupTask l id = some info) :
    (l.any fun p => p.1 == id) = true :=
  List.any_eq_true.mpr ⟨(id, info), lookupTask_some_mem h, by simp⟩

/-- `lookupTask` after the entrywise update map of `update_task_status`. -/
theorem lookupTask_map_if {l : List (String × TaskInfo)} {id : String}
    {info : TaskInfo} (f : TaskInfo → TaskInfo) (h : lookupTask l id = some info) :
    lookupTask (l.map (fun p => if p.1 = id then (p.1, f p.2) else p)) id
      = some (f info) := by
  induction l with
  | nil => simp [lookupTask] at h
  | cons hd tl ih =>
    obtain ⟨k, v⟩ := hd
    by_cases hk : k = id
    · subst hk
      have h' : v = info := by simpa [lookupTask] using h
      subst h'
      have hmap : List.map (fun p => if p.1 = k then (p.1, f p.2) else p) ((k, v) :: tl)
          = (k, f v) :: List.map (fun p => if p.1 = k then (p.1, f p.2) else p) tl := by
        simp
      rw [hmap]
      simp [lookupTask]
    · have hik : ¬ id = k := fun he => hk he.symm
      have hmap : List.map (fun p => if p.1 = id then (p.1, f p.2) else p) ((k, v) :: tl)
          = (k, v) :: List.map (fun p => if p.1 = id then (p.1, f p.2) else p) tl := by
        simp [hk]
      rw [hmap]
      simp [lookupTask, hik] at h ⊢
      exact ih h

/-- After filtering a key out of the registry, `lookupTask` on it misses. -/
theorem lookupTask_filter_self {l : List (String × TaskInfo)} {a : String} :
    lookupTask (l.filter (fun p => decide (p.1 ≠ a))) a = none := by
  induction l with
  | nil => rfl
  | cons hd tl ih =>
    obtain ⟨k, v⟩ := hd
    by_cases hk : k = a
    · subst hk
      simpa using ih
    · have hka : ¬ a = k := fun he => hk he.symm
      simpa [lookupTask, hk, hka] using ih

/-- Filtering one key out of the registry leaves `lookupTask` on others
alone. -/
theorem lookupTask_filter_ne {l : List (String × TaskInfo)} {a id : String}
    (hne : a ≠ id) :
    lookupTask (l.filter (fun p => decide (p.1 ≠ a))) id = lookupTask l id := by
  induction l with
  | nil => rfl
  | cons hd tl ih =>
    obtain ⟨k, v⟩ := hd
    by_cases hk : k = a
    · subst hk
      have hik : ¬ id = k := fun he => hne he.symm
      simpa [lookupTask, hik] using ih
    · by_cases hik : id = k
      · subst hik
        simp [lookupTask, hk]
      · simpa [lookupTask, hk, hik] using ih

/-- A missing key stays missing through a registry filter. -/
theorem lookupTask_filter_none {l : List (String × TaskInfo)} {a id : String}
    (h : lookupTask l id = none) :
    lookupTask (l.filter (fun p => decide (p.1 ≠ a))) id = none := by
  by_cases hk : a = id
  · subst hk
    exact lookupTask_filter_self
  · rw [lookupTask_filter_ne hk]
    exact h

/-- With duplicate-free keys (a Python dict), a key determines its value. -/
theorem value_unique_of_nodup_keys {l : List (String × TaskInfo)}
    (hn : (l.map Prod.fst).Nodup) {id : String} {v w : TaskInfo}
    (hv : (id, v) ∈ l) (hw : (id, w) ∈ l) : v = w := by
  induction l with
  | nil => simp at hv
  | cons hd tl ih =>
    obtain ⟨k, u⟩ := hd
    simp only [List.map_cons, List.nodup_cons] at hn
    rcases List.mem_cons.mp hv with h1 | h1 <;> rcases List.mem_cons.mp hw with h2 | h2
    · simp only [Prod.mk.injEq] at h1 h2
      rw [h1.2, h2.2]
    · simp only [Prod.mk.injEq] at h1
      exact absurd (h1.1 ▸ (List.mem_map.mpr ⟨(id, w), h2, rfl⟩)) hn.1
    · simp only [Prod.mk.injEq] at h2
      exact absurd (h2.1 ▸ (List.mem_map.mpr ⟨(id, v), h1, rfl⟩)) hn.1
    · exact ih hn.2 h1 h2

/-! ### Lemmas about the eviction fold -/

/-- The eviction fold over `delete_task` never raises. -/
theorem foldlM_delete_ok (ids : List String) (s : StorageState) :
    List.foldlM delete_task s ids = Except.ok (List.foldl delete_pure s ids) := by
  induction ids generalizing s with
  | nil => rfl
  | cons a tl ih =>
    rw [List.foldlM_cons, delete_task_eq_pure]
    simpa using ih (delete_pure s a)

/-- Deleting other ids leaves a lookup unchanged. -/
theorem foldl_delete_lookup_ne (ids : List String) (s : StorageState)
    (id : String) (h : id ∉ ids) :
    lookupTask (List.foldl delete_pure s ids).tasks id = lookupTask s.tasks id := by
  induction ids generalizing s with
  | nil => rfl
  | cons a tl ih =>
    have hne : a ≠ id := fun he => h (he ▸ List.mem_cons_self a tl)
    have h2 : id ∉ tl := fun hm => h (List.mem_cons_of_mem _ hm)
    rw [List.foldl_cons, ih _ h2]
    exact lookupTask_filter_ne hne

/-- A missing key stays missing through the eviction fold. -/
theorem foldl_delete_lookup_none (ids : List String) (s : StorageState)
    (id : String) (h : lookupTask s.tasks id = none) :
    lookupTask (List.foldl delete_pure s ids).tasks id = none := by
  induction ids generalizing s with
  | nil => exact h
  | cons a tl ih =>
    rw [List.foldl_cons]
    exact ih _ (lookupTask_filter_none h)

/-- Every id on the eviction list is gone after the fold. -/
theorem foldl_delete_lookup_mem (ids : List String) (s : StorageState)
    (id : String) (h : id ∈ ids) :
    lookupTask (List.foldl delete_pure s ids).tasks id = none := by
  induction ids generalizing s with
  | nil => simp at h
  | cons a tl ih =>
    rw [List.foldl_cons]
    by_cases ha : id ∈ tl
    · exact ih _ ha
    · have hai : a = id := by
        rcases List.mem_cons.mp h with h1 | h1
        · exact h1.symm
        · exact absurd h1 ha
      subst hai
      exact foldl_delete_lookup_none _ _ _ lookupTask_filter_self

/-- A filter is idempotent. -/
theorem filter_idem {α : Type} (p : α → Bool) (l : List α) :
    (l.filter p).filter p = l.filter p :=
  List.filter_eq_self.mpr (fun _ ha => List.of_mem_filter ha)

/-- Filtering a string out of a list removes every occurrence of it. -/
theorem contains_filter_ne_self (l : List String) (a : String) :
    (l.filter (fun x => decide (x ≠ a))).contains a = false := by
  simp

/-- `delete_pure` is idempotent. -/
theorem delete_pure_idem (s : StorageState) (id : String) :
    delete_pure (delete_pure s id) id = delete_pure s id := by
  simp [delete_pure, filter_idem]

/-! ## Claim C9 -/

/-- **C9**: `delete_task` removes the task directory und archive file if
present and then the registry entry; it never raises — in particular not when
the directory, archive or registry entry is already missing, since every
removal is guarded — and a second consecutive call returns the very same
state unchanged (idempotence). -/
theorem c9_delete_task_idempotent (s : StorageState) (id : String) :
    delete_task s id = Except.ok (delete_pure s id) ∧
    (delete_pure s id).dirs.contains id = false ∧
    (delete_pure s id).zips.contains id = false ∧
    lookupTask (delete_pure s id).tasks id = none ∧
    delete_task (delete_pure s id) id = Except.ok (delete_pure s id) := by
  refine ⟨delete_task_eq_pure s id, ?_, ?_, lookupTask_filter_self, ?_⟩
  · exact contains_filter_ne_self s.dirs id
  · exact contains_filter_ne_self s.zips id
  · rw [delete_task_eq_pure, delete_pure_idem]

/-! ## Claim C7 -/

/-- **C7**: an upload whose size exceeds the configured maximum, or whose
extension is not one of the allowed eight, raises a validation
`HTTPException` (413 respectively 400) before any job state is touched: the
storage state and the fresh-id counter come back unchanged, so no job
identifier is allocated, no registry entry is added and no task directory is
created. -/
theorem c7_invalid_upload_rejected (s : StorageState) (uuidCtr max_mb size : Nat)
    (ext : String) (now : Int)
    (h : size > max_mb * 1024 * 1024 ∨ allowed_extensions.contains ext = false) :
    (process_document_endpoint s uuidCtr max_mb size ext now).1 = (s, uuidCtr) ∧
    ((process_document_endpoint s uuidCtr max_mb size ext now).2 = Except.error 413 ∨
     (process_document_endpoint s uuidCtr max_mb size ext now).2 = Except.error 400) := by
  by_cases hs : size > max_mb * 1024 * 1024
  · constructor
    · simp [process_document_endpoint, hs]
    · left
      simp [process_document_endpoint, hs]
  · rcases h with h | h
    · exact absurd h hs
    · have hm : ext ∉ allowed_extensions := by simpa using h
      constructor
      · simp [process_document_endpoint, hs, h, hm]
      · right
        simp [process_document_endpoint, hs, h, hm]

/-- Witness for C7 at a concrete rejected upload: a 10-byte `.txt` file under
the default 50 MB limit is rejected and the empty state is untouched. -/
theorem c7_invalid_upload_rejected_witness :
    (process_document_endpoint ⟨[], [], []⟩ 0 50 10 ".txt" 0).1 = (⟨[], [], []⟩, 0) ∧
    ((process_document_endpoint ⟨[], [], []⟩ 0 50 10 ".txt" 0).2 = Except.error 413 ∨
     (process_document_endpoint ⟨[], [], []⟩ 0 50 10 ".txt" 0).2 = Except.error 400) :=
  c7_invalid_upload_rejected ⟨[], [], []⟩ 0 50 10 ".txt" 0 (Or.inr (by decide))

/-! ## Claim C8 -/

/-- **C8** counterexample: updating the known job `t` to FAILED while
providing the error message `""` overwrites the status but stores no error
message — the stored error stays `none`, not the provided `some ""` — so the
claim that a provided error message is always overwritten fails here. -/
theorem c8_provided_empty_error_dropped :
    get_task_status (update_task_status c8_state "t" TaskStatus.failed (some "")) "t"
      = some { status := TaskStatus.failed, created_at := 0, error := none } ∧
    some ({ status := TaskStatus.failed, created_at := 0, error := none } : TaskInfo)
      ≠ some { status := TaskStatus.failed, created_at := 0, error := some "" } := by
  constructor
  · decide
  · decide

/-- **C8** (amended): `update_task_status` with an unknown id is a no-op —
it cannot raise (it is a total function) and returns the registry with every
entry and field unchanged; with a known id it overwrites the status, and it
overwrites the error message exactly when the provided message is truthy,
i.e. present and non-empty (a provided empty string is ignored). -/
theorem c8_update_status_contract (s : StorageState) (id : String)
    (st : TaskStatus) (err : Option String) :
    ((s.tasks.any fun p => p.1 == id) = false → update_task_status s id st err = s) ∧
    (∀ info, lookupTask s.tasks id = some info →
      lookupTask (update_task_status s id st err).tasks id
        = some { status := st,
                 created_at := info.created_at,
                 error := if pyTruthy err then err else info.error }) := by
  constructor
  · intro h
    simp [update_task_status, h]
  · intro info hl
    have hany := lookupTask_some_any hl
    unfold update_task_status
    rw [if_pos hany]
    have hmap := lookupTask_map_if
      (fun t =>
        { t with
          status := st,
          error := if pyTruthy err then err else t.error }) hl
    simpa using hmap

/-- Witness for C8 (amended) at concrete inputs: the unknown id `ghost`
leaves the state unchanged; the known id `t` gets status FAILED and the
non-empty error `boom` stored. -/
theorem c8_update_status_contract_witness :
    update_task_status c8_state "ghost" TaskStatus.failed (some "boom") = c8_state ∧
    lookupTask (update_task_status c8_state "t" TaskStatus.failed (some "boom")).tasks "t"
      = some { status := TaskStatus.failed, created_at := 0, error := some "boom" } := by
  constructor
  · exact (c8_update_status_contract c8_state "ghost" TaskStatus.failed (some "boom")).1
      (by decide)
  · rw [(c8_update_status_contract c8_state "t" TaskStatus.failed (some "boom")).2
      c8_info (by decide)]
    decide

/-! ## Claim C10 -/

/-- **C10**: for a registered job, `update_task_status` with FAILED and the
empty-string error message sets the status to FAILED but does not record the
message: the stored error field is untouched (it is written only for a
non-empty provided string), so the status-query interface can report a FAILED
job with no error text. -/
theorem c10_failed_empty_error_not_recorded (s : StorageState) (id : String)
    (info : TaskInfo) (h : lookupTask s.tasks id = some info) :
    get_task_status (update_task_status s id TaskStatus.failed (some "")) id
      = some { status := TaskStatus.failed, created_at := info.created_at,
               error := info.error } := by
  have hany := lookupTask_some_any h
  unfold get_task_status update_task_status
  rw [if_pos hany]
  have hmap := lookupTask_map_if
    (fun t =>
      { t with
        status := TaskStatus.failed,
        error := if pyTruthy (some "") then some "" else t.error }) h
  simpa [pyTruthy] using hmap

/-- Witness for C10 at a concrete input: the FAILED job reports no error
text. -/
theorem c10_failed_empty_error_not_recorded_witness :
    get_task_status (update_task_status c10_state "job" TaskStatus.failed (some "")) "job"
      = some { status := TaskStatus.failed, created_at := 5, error := none } := by
  rw [c10_failed_empty_error_not_recorded c10_state "job" c10_info (by decide)]
  decide

/-! ## Claim C2 -/

/-- **C2** (code_bug evaluation): on the failing input — an image reference
written with the intermediate directory's own name in bare relative form,
`![img](document_artifacts/pic.png)` — the rewrite loop changes nothing:
pattern 1 demands a slash before `document_artifacts/`, pattern 2 an absolute
`/…/images/…` path, pattern 3 a bare `images/…` path.  The reference to the
intermediate artifacts directory therefore remains in the normalized document
and resolves to no file of `images/` (which holds only the fresh names),
while the same reference in absolute-path form, and the bare `images/` form,
are rewritten as the claim describes. -/
theorem c2_bare_artifacts_reference_survives :
    fixImagePaths c2_mapping "document_artifacts/pic.png"
      = "document_artifacts/pic.png" ∧
    mentionsArtifactsDir
      (fixImagePaths c2_mapping "document_artifacts/pic.png") = true ∧
    (imagesDirContents c2_mapping).contains
      (fixImagePaths c2_mapping "document_artifacts/pic.png") = false ∧
    fixDocument c2_mapping [MdChunk.imageRef "img" "document_artifacts/pic.png"]
      = [MdChunk.imageRef "img" "document_artifacts/pic.png"] ∧
    fixImagePaths c2_mapping "/tmp/out/document_artifacts/pic.png"
      = "images/" ++ c2_newName ∧
    fixImagePaths c2_mapping "images/pic.png" = "images/" ++ c2_newName := by
  refine ⟨?_, ?_, ?_, ?_, ?_, ?_⟩ <;> decide

/-! ## Claim C3 — counterexample -/

/-- **C3** counterexample: with `now = 86400` and `ttl = 86400` seconds the
cutoff is `0`, and the job was created exactly at the cutoff (`now − ttl`).
The claim says such a job is evicted (inclusive cutoff), but
`cleanup_old_tasks` compares with a strict `<`, collects nothing, and returns
the state unchanged: the job, its directory and its archive all survive. -/
theorem c3_exact_cutoff_job_retained :
    cleanup_old_tasks c3_state 86400 86400 = Except.ok c3_state ∧
    get_task_status c3_state "job" = some c3_info := by
  constructor
  · rfl
  · rfl

/-! ### Structure of the pipeline event list -/

/-- The pipeline call emits at most the bridged-file cleanup event. -/
theorem pipeline_events_cases (b : Bool) (env : Env) :
    (pipeline_call b env).1 = [] ∨
    (pipeline_call b env).1 = [Event.deleteBridgedFile] := by
  obtain ⟨ext, bridge, bex, conv, expo, arch, tde, rmt, upe⟩ := env
  cases b
  · left
    rfl
  · by_cases hnb : (ext == ".doc" || ext == ".xls") = true <;>
    rcases bridge with e1 | ⟨⟩ <;>
    rcases conv with e2 | ⟨⟩ <;>
    rcases expo with e3 | ⟨⟩ <;>
    cases bex <;>
    simp [pipeline_call, process_document_trace, needsBridge, hnb]

/-- The pipeline call emits no status updates. -/
theorem statusesOf_pipeline_events (b : Bool) (env : Env) :
    statusesOf (pipeline_call b env).1 = [] := by
  rcases pipeline_events_cases b env with h | h <;> rw [h] <;> rfl

/-- The statuses written by one runner invocation: PROCESSING followed by
exactly one terminal status. -/
theorem statusesOf_task_trace (b : Bool) (env : Env) :
    statusesOf (process_document_task_trace b env)
      = [TaskStatus.processing, TaskStatus.completed] ∨
    statusesOf (process_document_task_trace b env)
      = [TaskStatus.processing, TaskStatus.failed] := by
  have hp := statusesOf_pipeline_events b env
  simp only [process_document_task_trace]
  cases hp2 : (pipeline_call b env).2 with
  | error e =>
      right
      cases hu : env.uploadExists <;>
        simp [statusesOf, List.filterMap_append, hu] <;>
        simpa [statusesOf] using hp
  | ok u =>
      cases ha : env.archive with
      | error e =>
          right
          cases hu : env.uploadExists <;>
            simp [statusesOf, List.filterMap_append, hu] <;>
            simpa [statusesOf] using hp
      | ok v =>
          cases ht : env.taskDirExists
          · left
            cases hu : env.uploadExists <;>
              simp [statusesOf, List.filterMap_append, hu] <;>
            simpa [statusesOf] using hp
          · cases hr : env.rmtreeTaskDir with
            | error e =>
                right
                cases hu : env.uploadExists <;>
                  simp [statusesOf, List.filterMap_append, hu] <;>
            simpa [statusesOf] using hp
            | ok w =>
                left
                cases hu : env.uploadExists <;>
                  simp [statusesOf, List.filterMap_append, hu] <;>
            simpa [statusesOf] using hp

/-! ## Claim C5 -/

/-- **C5**: over every environment outcome, and whether or not the argument
binding of the pipeline call succeeds, the statuses a job takes — PENDING at
creation followed by the updates of the runner trace — form a walk along
PENDING → PROCESSING → (COMPLETED | FAILED): the status never moves
backwards, and a terminal status is reached only through PROCESSING. -/
theorem c5_status_lifecycle_monotonic (b : Bool) (env : Env) :
    validLifecycle
      (TaskStatus.pending :: statusesOf (process_document_task_trace b env)) = true := by
  rcases statusesOf_task_trace b env with h | h <;> rw [h] <;> decide

/-! ## Claim C4 -/

/-- **C4**: in every runner trace, COMPLETED is set only after the archive
was produced (no COMPLETED update occurs before the first `makeArchive`
event) and — when the expanded task directory existed — only after it was
removed; and whenever any step preceding the COMPLETED update raises
(the bridging/conversion/export stages of the pipeline call, archiving, or
the directory removal), the runner sets FAILED with the captured error text
and COMPLETED is never set. -/
theorem c4_completed_only_after_archive_and_removal (b : Bool) (env : Env) :
    noEventBefore (process_document_task_trace b env)
      Event.makeArchive completedSet = true ∧
    (env.taskDirExists = true →
      noEventBefore (process_document_task_trace b env)
        Event.removeTaskDir completedSet = true) ∧
    (raisedDuring b env = true →
      (process_document_task_trace b env).any failedSet = true ∧
      (process_document_task_trace b env).all (fun e => !(completedSet e)) = true) := by
  rcases pipeline_events_cases b env with h1 | h1 <;>
  · simp only [process_document_task_trace, raisedDuring, h1]
    cases hp2 : (pipeline_call b env).2 <;>
    rcases env.archive with e4 | ⟨⟩ <;>
    rcases env.rmtreeTaskDir with e5 | ⟨⟩ <;>
    cases ht : env.taskDirExists <;>
    cases hu : env.uploadExists <;>
      simp [h1, hp2, ht, hu, noEventBefore, completedSet, failedSet]

/-- Witness for C4 at a concrete environment in which the engine conversion
raises: the job is marked FAILED, never COMPLETED, and no COMPLETED update
precedes archiving or directory removal. -/
theorem c4_completed_only_after_archive_and_removal_witness :
    noEventBefore (process_document_task_trace true c4_env)
      Event.makeArchive completedSet = true ∧
    noEventBefore (process_document_task_trace true c4_env)
      Event.removeTaskDir completedSet = true ∧
    ((process_document_task_trace true c4_env).any failedSet = true ∧
     (process_document_task_trace true c4_env).all
       (fun e => !(completedSet e)) = true) :=
  ⟨(c4_completed_only_after_archive_and_removal true c4_env).1,
   (c4_completed_only_after_archive_and_removal true c4_env).2.1 rfl,
   (c4_completed_only_after_archive_and_removal true c4_env).2.2 (by decide)⟩

/-! ## Claim C6 -/

/-- **C6**: on every exit path of a job run — success or any raised
exception, with or without successful call binding — the last action of the
trace deletes the uploaded temporary file (when it still exists, the guard of
the source); and whenever a bridged intermediate file was created (the body
ran, the suffix was legacy, bridging succeeded) and still exists at cleanup
time, the trace deletes it too. -/
theorem c6_temp_files_always_deleted (b : Bool) (env : Env) :
    (env.uploadExists = true →
      (process_document_task_trace b env).getLast? = some Event.deleteUploadFile) ∧
    (b = true → needsBridge env = true → env.bridge = Except.ok () →
      env.bridgedExistsAtCleanup = true →
      Event.deleteBridgedFile ∈ process_document_task_trace b env) := by
  constructor
  · intro hu
    simp only [process_document_task_trace, hu, if_true]
    exact List.getLast?_concat _
  · intro hb hnb hbr hbe
    subst hb
    obtain ⟨ext, bridge, bex, conv, expo, arch, tde, rmt, upe⟩ := env
    simp only [needsBridge] at hnb
    simp only at hbr hbe
    subst hbr
    subst hbe
    rcases conv with e2 | ⟨⟩ <;>
    rcases expo with e3 | ⟨⟩ <;>
    rcases arch with e4 | ⟨⟩ <;>
    rcases rmt with e5 | ⟨⟩ <;>
    cases tde <;> cases upe <;>
      simp [process_document_task_trace, pipeline_call, process_document_trace,
            needsBridge, hnb]

/-- Witness for C6 at a concrete fully-successful `.doc` run with successful
binding: the trace ends by deleting the upload and contains the bridged-file
deletion. -/
theorem c6_temp_files_always_deleted_witness :
    (process_document_task_trace true c6_env).getLast?
      = some Event.deleteUploadFile ∧
    Event.deleteBridgedFile ∈ process_document_task_trace true c6_env :=
  ⟨(c6_temp_files_always_deleted true c6_env).1 rfl,
   (c6_temp_files_always_deleted true c6_env).2 rfl (by decide) rfl rfl⟩

/-! ## Claim C1 -/

/-- **C1** (code_bug evaluation): the runner invokes the pipeline with the
keyword argument `table_format`, which `process_document` does not declare,
so Python's binding check fails (`call_accepted = false`) and the call raises
`TypeError` before the pipeline body runs; consequently, over every
environment — in particular one where bridging, engine conversion, export and
archiving would all succeed — the job always ends FAILED and is never marked
COMPLETED, contradicting the claimed acceptance and COMPLETED terminal
status. -/
theorem c1_call_binding_rejected_jobs_fail (env : Env) :
    call_accepted = false ∧
    (process_document_task_trace call_accepted env).any failedSet = true ∧
    (process_document_task_trace call_accepted env).all
      (fun e => !(completedSet e)) = true := by
  have hca : call_accepted = false := by decide
  rw [hca]
  refine ⟨rfl, ?_, ?_⟩ <;>
  · cases hu : env.uploadExists <;>
      simp [process_document_task_trace, pipeline_call, hu, failedSet, completedSet]

/-! ## Claim C3 — amended -/

/-- **C3** (amended): when eviction runs, a registered job whose creation
time equals exactly `now − ttl` is retained — the cutoff comparison is strict,
hence exclusive — and a job one second younger is likewise retained (both
fall under `cutoff ≤ created_at`); exactly the jobs strictly older than the
cutoff are evicted.  Registry keys are duplicate-free, as in a Python dict. -/
theorem c3_eviction_boundary_exclusive (s : StorageState) (now ttl : Int)
    (id : String) (info : TaskInfo)
    (hn : (s.tasks.map Prod.fst).Nodup)
    (hl : lookupTask s.tasks id = some info) :
    (now - ttl ≤ info.created_at →
      ∃ s2, cleanup_old_tasks s now ttl = Except.ok s2 ∧
        lookupTask s2.tasks id = some info) ∧
    (info.created_at < now - ttl →
      ∃ s2, cleanup_old_tasks s now ttl = Except.ok s2 ∧
        lookupTask s2.tasks id = none) := by
  have hok : cleanup_old_tasks s now ttl
      = Except.ok (List.foldl delete_pure s
          ((s.tasks.filter (fun p => decide (p.2.created_at < now - ttl))).map
            (fun p => p.1))) := by
    unfold cleanup_old_tasks
    exact foldlM_delete_ok _ s
  constructor
  · intro hge
    have hmem : (id, info) ∈ s.tasks := lookupTask_some_mem hl
    have hnotin : id ∉ (s.tasks.filter
        (fun p => decide (p.2.created_at < now - ttl))).map (fun p => p.1) := by
      intro hmm
      rcases List.mem_map.mp hmm with ⟨⟨p1, p2⟩, hpf, hpe⟩
      simp only at hpe
      subst hpe
      have hpl : p2.created_at < now - ttl := by
        simpa using List.of_mem_filter hpf
      have hpm : (p1, p2) ∈ s.tasks := List.mem_of_mem_filter hpf
      have hve : p2 = info := value_unique_of_nodup_keys hn hpm hmem
      rw [hve] at hpl
      exact absurd hpl (not_lt.mpr hge)
    refine ⟨_, hok, ?_⟩
    rw [foldl_delete_lookup_ne _ _ _ hnotin]
    exact hl
  · intro hlt
    refine ⟨_, hok, ?_⟩
    apply foldl_delete_lookup_mem
    exact List.mem_map.mpr ⟨(id, info),
      List.mem_filter.mpr ⟨lookupTask_some_mem hl, by simpa using hlt⟩, rfl⟩

/-- Witness for C3 (amended) at the concrete boundary state: the job created
exactly at the cutoff survives eviction. -/
theorem c3_eviction_boundary_exclusive_witness :
    ∃ s2, cleanup_old_tasks c3_state 86400 86400 = Except.ok s2 ∧
      lookupTask s2.tasks "job" = some c3_info :=
  (c3_eviction_boundary_exclusive c3_state 86400 86400 "job" c3_info
    (by decide) (by decide)).1 (by decide)

end DoclingOCR
